import Mathlib

/-!
Verification of the Glassly overlay's region-capture transform, crop/OCR
pipeline, streaming chat accumulation, and session configuration, as a
shallow embedding of the TypeScript source
(`src/components/GlassOverlay.tsx`, `src/services/geminiService.ts`).

Coordinates and dimensions are embedded as rationals (`ℚ`): the source
computes in JS numbers with exact division intended by the spec, and the
claims are about exact real arithmetic, so `ℚ` gives the exact field
semantics of the formulas.
-/

namespace Glassly

/-- A selection rectangle `{x, y, w, h}` in container-local coordinates
(the `Rect` of `GlassOverlay.tsx`). -/
structure Rect where
  x : ℚ
  y : ℚ
  w : ℚ
  h : ℚ
  deriving Repr, DecidableEq

/-- A 2-D point, as used for `cropStart` and the live pointer position. -/
structure Pt where
  x : ℚ
  y : ℚ
  deriving Repr, DecidableEq

/-- The captured still frame: encoded data plus intrinsic pixel dimensions
(`img.width`, `img.height` after decoding `tempScreenshot`). -/
structure Screenshot where
  data : String
  width : ℚ
  height : ℚ
  deriving Repr, DecidableEq

/-- The aspect-fit render geometry computed inside `processCrop`
(`renderW`, `renderH`, `offsetX`, `offsetY`). -/
structure RenderGeom where
  renderW : ℚ
  renderH : ℚ
  offsetX : ℚ
  offsetY : ℚ
  deriving Repr, DecidableEq

/-- Lines 471–486 of `GlassOverlay.tsx`: compute the "contain"-fit render
box.  `imgRatio = imgW / imgH`, `containerRatio = containerW / containerH`;
if `containerRatio > imgRatio` the image is height-constrained, else
width-constrained. -/
def computeRenderGeom (containerW containerH imgW imgH : ℚ) : RenderGeom :=
  let imgRatio := imgW / imgH
  let containerRatio := containerW / containerH
  if containerRatio > imgRatio then
    { renderW := containerH * imgRatio
      renderH := containerH
      offsetX := (containerW - containerH * imgRatio) / 2
      offsetY := 0 }
  else
    { renderW := containerW
      renderH := containerW / imgRatio
      offsetX := 0
      offsetY := (containerH - containerW / imgRatio) / 2 }

/-- Lines 488–494 of `GlassOverlay.tsx`: map the selection to image space,
`scaleX = imgW / renderW`, `scaleY = imgH / renderH`,
`actualX = (x - offsetX) * scaleX`, etc.  No clipping is performed. -/
def cropMapping (containerW containerH imgW imgH : ℚ) (sel : Rect) : Rect :=
  let g := computeRenderGeom containerW containerH imgW imgH
  let scaleX := imgW / g.renderW
  let scaleY := imgH / g.renderH
  { x := (sel.x - g.offsetX) * scaleX
    y := (sel.y - g.offsetY) * scaleY
    w := sel.w * scaleX
    h := sel.h * scaleY }

/-- The two invocation modes of `processCrop`. -/
inductive CropMode where
  | attach
  | ocr
  deriving Repr, DecidableEq

/-- The crop action `processCrop` goes on to perform when the guard passes:
the mode together with the image-space rectangle handed to
`ctx.drawImage`. -/
structure CropAction where
  mode : CropMode
  rect : Rect
  deriving Repr, DecidableEq

/-- `processCrop` (lines 459–501 of `GlassOverlay.tsx`) up to the point the
sub-rectangle is extracted: `none` models the early `return` (no crop is
produced, no recognition call is made, no state changes); `some` carries the
exact rectangle passed to `ctx.drawImage`. -/
def processCrop (tempScreenshot : Option Screenshot) (cropRect : Option Rect)
    (containerW containerH : ℚ) (mode : CropMode) : Option CropAction :=
  match tempScreenshot, cropRect with
  | some shot, some r =>
    if r.w < 10 ∨ r.h < 10 then none
    else some { mode := mode
                rect := cropMapping containerW containerH shot.width shot.height r }
  | _, _ => none

/-- The spec's clamping predicate (section 4.1 step 5): the image-space
rectangle lies within `[0, imgW] × [0, imgH]`. -/
def inBounds (r : Rect) (imgW imgH : ℚ) : Prop :=
  0 ≤ r.x ∧ 0 ≤ r.y ∧ r.x + r.w ≤ imgW ∧ r.y + r.h ≤ imgH

instance (r : Rect) (imgW imgH : ℚ) : Decidable (inBounds r imgW imgH) := by
  unfold inBounds; infer_instance

/-- The property stated by the spec for the aspect-fit geometry (section 8 of
the spec together with section 4.1 step 2): branch selection by
`containerRatio > imgRatio`, exact preservation of the `imgW/imgH` aspect
ratio (stated multiplicatively), and the zero-offset structure.  The claimed
"exactly one of `offsetX`, `offsetY` is zero" holds under the extra proviso
that the two ratios differ; without it only "at least one is zero" is true. -/
def aspectFitSpec (containerW containerH imgW imgH : ℚ) : Prop :=
  ((containerW / containerH > imgW / imgH →
      (computeRenderGeom containerW containerH imgW imgH).renderH = containerH ∧
      (computeRenderGeom containerW containerH imgW imgH).renderW
        = containerH * (imgW / imgH) ∧
      (computeRenderGeom containerW containerH imgW imgH).offsetX
        = (containerW - (computeRenderGeom containerW containerH imgW imgH).renderW) / 2 ∧
      (computeRenderGeom containerW containerH imgW imgH).offsetY = 0) ∧
   (¬ containerW / containerH > imgW / imgH →
      (computeRenderGeom containerW containerH imgW imgH).renderW = containerW ∧
      (computeRenderGeom containerW containerH imgW imgH).renderH
        = containerW / (imgW / imgH) ∧
      (computeRenderGeom containerW containerH imgW imgH).offsetX = 0 ∧
      (computeRenderGeom containerW containerH imgW imgH).offsetY
        = (containerH - (computeRenderGeom containerW containerH imgW imgH).renderH) / 2)) ∧
  (computeRenderGeom containerW containerH imgW imgH).renderW * imgH
    = (computeRenderGeom containerW containerH imgW imgH).renderH * imgW ∧
  ((computeRenderGeom containerW containerH imgW imgH).offsetX = 0 ∨
   (computeRenderGeom containerW containerH imgW imgH).offsetY = 0) ∧
  (containerW / containerH ≠ imgW / imgH →
    ((computeRenderGeom containerW containerH imgW imgH).offsetX = 0 ∧
     (computeRenderGeom containerW containerH imgW imgH).offsetY ≠ 0) ∨
    ((computeRenderGeom containerW containerH imgW imgH).offsetX ≠ 0 ∧
     (computeRenderGeom containerW containerH imgW imgH).offsetY = 0))

/-- Helper for `jsTrim`: drop leading whitespace characters from a character
list (structurally recursive so that it evaluates in the kernel). -/
def dropWhileWhitespace : List Char → List Char
  | [] => []
  | c :: cs => if c.isWhitespace then dropWhileWhitespace cs else c :: cs

/-- JavaScript's `String.prototype.trim` as used by `processCrop`'s
`setInputText` updater: strip whitespace from both ends of the string.
(Embedded structurally over the character list; on the ASCII strings of the
spec scenarios this agrees with JS semantics.) -/
def jsTrim (s : String) : String :=
  ⟨dropWhileWhitespace (dropWhileWhitespace s.data.reverse).reverse⟩

/-- The OCR pipeline status of the overlay
(`useState<'idle' | 'scanning' | 'success' | 'error'>`). -/
inductive OcrState where
  | idle
  | scanning
  | success
  | error
  deriving Repr, DecidableEq

/-- The slice of the `GlassOverlay` component state touched by the crop/OCR
pipeline: `inputText`, `ocrState`, `isCropping`, `tempScreenshot`,
`cropRect`, `inputHighlight`. -/
structure OverlayState where
  inputText : String
  ocrState : OcrState
  isCropping : Bool
  tempScreenshot : Option String
  cropRect : Option Rect
  inputHighlight : Bool
  deriving Repr, DecidableEq

/-- Lines 512–515 of `GlassOverlay.tsx`: the `setInputText` updater run when
OCR succeeds — `const trimmed = prev.trim(); return trimmed
? trimmed + "\n" + text : text`. -/
def appendOcrText (prev text : String) : String :=
  let trimmed := jsTrim prev
  if trimmed = "" then text else trimmed ++ "\n" ++ text

/-- `cancelCrop` (lines 419–424): leave crop mode, drop the captured frame
and the selection, reset the OCR status. -/
def cancelCrop (s : OverlayState) : OverlayState :=
  { s with isCropping := false, tempScreenshot := none, cropRect := none,
           ocrState := OcrState.idle }

/-- The state updates of `processCrop`'s OCR success path (lines 511–517),
before the 1200 ms timeout fires: append the extracted text to the input,
mark success, highlight the input. -/
def ocrSuccessStep (s : OverlayState) (text : String) : OverlayState :=
  { s with inputText := appendOcrText s.inputText text,
           ocrState := OcrState.success, inputHighlight := true }

/-- The state update of `processCrop`'s OCR catch branch (line 524):
`setOcrState('error')` — and nothing else. -/
def ocrFailureStep (s : OverlayState) : OverlayState :=
  { s with ocrState := OcrState.error }

/-- The state update of the timeout scheduled by the catch branch
(line 525): `setOcrState('idle')` after `ocrErrorClearDelayMs`. -/
def ocrErrorTimeoutStep (s : OverlayState) : OverlayState :=
  { s with ocrState := OcrState.idle }

/-- The fixed delay (ms) after which the OCR error status is auto-cleared
(line 525: `setTimeout(() => setOcrState('idle'), 2000)`). -/
def ocrErrorClearDelayMs : ℕ := 2000

/-- `handleCropMouseDown` (lines 426–437): the selection rectangle stored at
drag start — the anchor point with zero width and height. -/
def handleCropMouseDownRect (p : Pt) : Rect :=
  { x := p.x, y := p.y, w := 0, h := 0 }

/-- `handleCropMouseMove` (lines 439–453): the selection rectangle stored
while dragging — componentwise minimum of anchor and pointer, absolute
coordinate differences as dimensions. -/
def handleCropMouseMoveRect (cropStart current : Pt) : Rect :=
  { x := min current.x cropStart.x
    y := min current.y cropStart.y
    w := |current.x - cropStart.x|
    h := |current.y - cropStart.y| }

/-- Message roles (`'user' | 'model'` in `types.ts`). -/
inductive Role where
  | user
  | model
  deriving Repr, DecidableEq

/-- The `Message` record of `types.ts`, restricted to the fields the claims
touch (`id`, `role`, `text`, `isStreaming`). -/
structure Message where
  id : String
  role : Role
  text : String
  isStreaming : Bool
  deriving Repr, DecidableEq

/-- The placeholder model message appended before streaming starts
(lines 622–631 of `GlassOverlay.tsx`): empty text, `isStreaming: true`. -/
def botPlaceholder (botId : String) : Message :=
  { id := botId, role := Role.model, text := "", isStreaming := true }

/-- The per-message update of the `onChunk` callback (lines 641–648):
replace the text of the message whose id is `botId` with the accumulated
response; leave every other message unchanged. -/
def updateBotText (botId fullResponse : String) (m : Message) : Message :=
  if m.id = botId then { m with text := fullResponse } else m

/-- One `onChunk` invocation (lines 639–650): append the chunk to
`fullResponse` and write the new accumulation into the bot message. -/
def streamStep (botId : String) (st : String × List Message)
    (chunk : String) : String × List Message :=
  let fullResponse := st.1 ++ chunk
  (fullResponse, st.2.map (updateBotText botId fullResponse))

/-- Consuming a list of chunks in arrival order, starting from
`fullResponse = ''` (line 634) and the given message list. -/
def streamChunks (botId : String) (messages : List Message)
    (chunks : List String) : String × List Message :=
  chunks.foldl (streamStep botId) ("", messages)

/-- The text currently displayed for the message with the given id. -/
def displayedText (messages : List Message) (botId : String) : Option String :=
  (messages.find? (fun m => m.id = botId)).map Message.text

/-- The `SessionConfig` interface of `geminiService.ts`. -/
structure SessionConfig where
  model : String
  temperature : ℚ
  systemInstruction : String
  useThinking : Bool
  useSearch : Bool
  useMaps : Bool
  deriving Repr, DecidableEq

/-- The tools pushed onto the tools array in `createChatSession`. -/
inductive Tool where
  | googleSearch
  | googleMaps
  deriving Repr, DecidableEq

/-- The `latLng` retrieval payload hard-coded for the maps tool. -/
structure LatLng where
  latitude : ℚ
  longitude : ℚ
  deriving Repr, DecidableEq

/-- The `generationConfig` object assembled by `createChatSession`: optional
fields model JS properties that are left `undefined`. -/
structure GenerationConfig where
  systemInstruction : String
  tools : Option (List Tool)
  temperature : Option ℚ
  thinkingBudget : Option ℕ
  toolConfigLatLng : Option LatLng
  deriving Repr, DecidableEq

/-- A history entry (`Content` with a single text part, as built in
`handleSendMessage` lines 604–607). -/
structure Content where
  role : Role
  text : String
  deriving Repr, DecidableEq

/-- The argument record of the final `client.chats.create` call. -/
structure ChatSessionRequest where
  model : String
  config : GenerationConfig
  history : List Content
  deriving Repr, DecidableEq

/-- `ModelType.PRO` from `types.ts`. -/
def ModelType.PRO : String := "gemini-3-pro-preview"

/-- `createChatSession` (lines 23–75 of `geminiService.ts`): build the tool
list (search first, then maps), override the model with `ModelType.PRO` when
`useThinking` is set, pass `temperature` only when `useThinking` is not set,
and set the thinking budget / maps retrieval location accordingly. -/
def createChatSession (config : SessionConfig) (history : List Content) :
    ChatSessionRequest :=
  let tools := (if config.useSearch then [Tool.googleSearch] else [])
      ++ (if config.useMaps then [Tool.googleMaps] else [])
  let effectiveModel := if config.useThinking then ModelType.PRO else config.model
  { model := effectiveModel
    config :=
      { systemInstruction := config.systemInstruction
        tools := if tools.length > 0 then some tools else none
        temperature := if config.useThinking then none else some config.temperature
        thinkingBudget := if config.useThinking then some 16384 else none
        toolConfigLatLng :=
          if config.useMaps then some ⟨377749/10000, -1224194/10000⟩ else none }
    history := history }

/-- The slice of `ChatState` touched by the stream error handler:
`messages`, `isLoading`, `error`. -/
structure ChatStateM where
  messages : List Message
  isLoading : Bool
  error : Option String
  deriving Repr, DecidableEq

/-- The catch branch of `handleSendMessage` (lines 663–670): clear
`isLoading`, set the error message, and remove every message whose id is the
placeholder's id. -/
def streamErrorStep (botMessageId : String) (s : ChatStateM) : ChatStateM :=
  { s with isLoading := false
           error := some "Failed to generate response."
           messages := s.messages.filter (fun m => m.id != botMessageId) }

/-! ## Theorems -/

/-- C1, theorem (amended): for positive container and image dimensions the
transform selects the height-constrained branch exactly when
`containerRatio > imgRatio`, the computed `renderW, renderH` preserve the
`imgW/imgH` aspect ratio exactly, at least one of `offsetX, offsetY` is
zero, and exactly one of them is zero whenever the two ratios differ (when
the ratios coincide both offsets are zero, which refutes the claim's
unconditional "exactly one"). -/
theorem aspect_fit_correct (containerW containerH imgW imgH : ℚ)
    (hcw : 0 < containerW) (hch : 0 < containerH)
    (hiw : 0 < imgW) (hih : 0 < imgH) :
    aspectFitSpec containerW containerH imgW imgH := by
  have hr : 0 < imgW / imgH := div_pos hiw hih
  simp only [aspectFitSpec, computeRenderGeom]
  split_ifs with h
  · refine ⟨⟨fun _ => ⟨rfl, rfl, rfl, rfl⟩, fun hc => absurd h hc⟩, ?_, Or.inr rfl,
      fun _ => ?_⟩
    · show containerH * (imgW / imgH) * imgH = containerH * imgW
      rw [mul_assoc, div_mul_cancel₀ _ (ne_of_gt hih)]
    · refine Or.inr ⟨?_, rfl⟩
      show (containerW - containerH * (imgW / imgH)) / 2 ≠ 0
      have hlt : imgW / imgH * containerH < containerW := (lt_div_iff₀ hch).mp h
      have hpos : 0 < (containerW - containerH * (imgW / imgH)) / 2 := by
        rw [mul_comm containerH]
        exact div_pos (sub_pos.mpr hlt) (by norm_num)
      exact ne_of_gt hpos
  · refine ⟨⟨fun hc => absurd hc h, fun _ => ⟨rfl, rfl, rfl, rfl⟩⟩, ?_, Or.inl rfl,
      fun hne => ?_⟩
    · show containerW * imgH = containerW / (imgW / imgH) * imgW
      rw [div_div_eq_mul_div, div_mul_cancel₀ _ (ne_of_gt hiw)]
    · refine Or.inl ⟨rfl, ?_⟩
      show (containerH - containerW / (imgW / imgH)) / 2 ≠ 0
      have hlt' : containerW / containerH < imgW / imgH := lt_of_le_of_ne (not_lt.mp h) hne
      have hlt : containerW < containerH * (imgW / imgH) := by
        have := (div_lt_iff₀ hch).mp hlt'
        linarith [this]
      have hdiv : containerW / (imgW / imgH) < containerH := by
        rw [div_lt_iff₀ hr]
        linarith [hlt]
      have hpos : 0 < (containerH - containerW / (imgW / imgH)) / 2 :=
        div_pos (sub_pos.mpr hdiv) (by norm_num)
      exact ne_of_gt hpos

/-- C1, witness: the amended aspect-fit property instantiated at the spec's
own scenario, container 1000×500 against image 4000×1000. -/
theorem aspect_fit_correct_witness :
    (0:ℚ) < 1000 ∧ (0:ℚ) < 500 ∧ (0:ℚ) < 4000 ∧ (0:ℚ) < 1000 ∧
    aspectFitSpec 1000 500 4000 1000 :=
  ⟨by norm_num, by norm_num, by norm_num, by norm_num,
    aspect_fit_correct 1000 500 4000 1000 (by norm_num) (by norm_num)
      (by norm_num) (by norm_num)⟩

/-- C1, counterexample: with container 1×1 and image 1×1 (all dimensions
positive, the two aspect ratios equal) the width-constrained branch runs and
both offsets are zero, so "exactly one of `offsetX`, `offsetY` is zero"
fails. -/
theorem aspect_fit_exactly_one_counterexample :
    ((0:ℚ) < 1 ∧ (0:ℚ) < 1 ∧ (0:ℚ) < 1 ∧ (0:ℚ) < 1) ∧
    (computeRenderGeom 1 1 1 1).offsetX = 0 ∧
    (computeRenderGeom 1 1 1 1).offsetY = 0 ∧
    ¬ (((computeRenderGeom 1 1 1 1).offsetX = 0 ∧
        (computeRenderGeom 1 1 1 1).offsetY ≠ 0) ∨
       ((computeRenderGeom 1 1 1 1).offsetX ≠ 0 ∧
        (computeRenderGeom 1 1 1 1).offsetY = 0)) := by
  norm_num [computeRenderGeom]

/-- C2: the spec scenario — container 1000×500, image 4000×1000 takes the
width-constrained branch (`containerRatio = 2 ≤ 4 = imgRatio`), giving
`renderW = 1000`, `renderH = 250`, `offsetX = 0`, `offsetY = 125`, scale
factors 4 on both axes, and mapping the selection `{x:100, y:125, w:200,
h:50}` to `{actualX:400, actualY:0, actualW:800, actualH:200}`. -/
theorem crop_scenario_1000x500 :
    ¬ ((1000:ℚ) / 500 > (4000:ℚ) / 1000) ∧
    computeRenderGeom 1000 500 4000 1000
      = { renderW := 1000, renderH := 250, offsetX := 0, offsetY := 125 } ∧
    (4000:ℚ) / (computeRenderGeom 1000 500 4000 1000).renderW = 4 ∧
    (1000:ℚ) / (computeRenderGeom 1000 500 4000 1000).renderH = 4 ∧
    cropMapping 1000 500 4000 1000 { x := 100, y := 125, w := 200, h := 50 }
      = { x := 400, y := 0, w := 800, h := 200 } := by
  norm_num [computeRenderGeom, cropMapping]

/-- C3, theorem (amended): whenever the minimum-size check accepts the
selection, `processCrop` extracts exactly the unclipped affine image of the
selection — no clamping to `[0, imgW] × [0, imgH]` is applied before the
sub-rectangle is handed to `drawImage`. -/
theorem processCrop_no_clipping (shot : Screenshot) (r : Rect)
    (containerW containerH : ℚ) (mode : CropMode)
    (hw : 10 ≤ r.w) (hh : 10 ≤ r.h) :
    processCrop (some shot) (some r) containerW containerH mode
      = some { mode := mode
               rect := cropMapping containerW containerH shot.width shot.height r } := by
  have hguard : ¬ (r.w < 10 ∨ r.h < 10) := by
    push_neg
    exact ⟨hw, hh⟩
  simp [processCrop, hguard]

/-- C3, witness: the no-clipping theorem applied to a selection that reaches
into the top letterbox bar of the 1000×500 / 4000×1000 scenario. -/
theorem processCrop_no_clipping_witness :
    (10:ℚ) ≤ (Rect.mk 100 0 200 50).w ∧ (10:ℚ) ≤ (Rect.mk 100 0 200 50).h ∧
    processCrop (some (Screenshot.mk "frame" 4000 1000)) (some (Rect.mk 100 0 200 50))
        1000 500 CropMode.attach
      = some { mode := CropMode.attach
               rect := cropMapping 1000 500 (Screenshot.mk "frame" 4000 1000).width
                 (Screenshot.mk "frame" 4000 1000).height (Rect.mk 100 0 200 50) } :=
  ⟨by norm_num, by norm_num,
    processCrop_no_clipping (Screenshot.mk "frame" 4000 1000) (Rect.mk 100 0 200 50)
      1000 500 CropMode.attach (by norm_num) (by norm_num)⟩

/-- C3, counterexample: a selection accepted by the minimum-size check whose
top edge lies in the letterbox bar (`y = 0` while the render area starts at
`offsetY = 125`) is mapped to `actualY = -500`, outside
`[0, imgW] × [0, imgH]` — the code performs no clipping. -/
theorem processCrop_clipping_counterexample :
    processCrop (some (Screenshot.mk "frame" 4000 1000)) (some (Rect.mk 100 0 200 50))
        1000 500 CropMode.attach
      = some { mode := CropMode.attach, rect := { x := 400, y := -500, w := 800, h := 200 } } ∧
    ¬ inBounds { x := 400, y := -500, w := 800, h := 200 } 4000 1000 := by
  constructor
  · norm_num [processCrop, cropMapping, computeRenderGeom]
  · norm_num [inBounds]

/-- C4: a selection below the 10-pixel minimum on either axis makes
`processCrop` return before doing anything, in both modes — no crop is
produced, no recognition call is made, no state changes. -/
theorem processCrop_min_size_guard (shot : Screenshot) (r : Rect)
    (containerW containerH : ℚ) (mode : CropMode)
    (h : r.w < 10 ∨ r.h < 10) :
    processCrop (some shot) (some r) containerW containerH mode = none := by
  simp [processCrop, h]

/-- C4, witness: a selection with `w = 9` produces no crop action for either
mode. -/
theorem processCrop_min_size_guard_witness :
    ((Rect.mk 0 0 9 50).w < 10 ∨ (Rect.mk 0 0 9 50).h < 10) ∧
    processCrop (some (Screenshot.mk "frame" 4000 1000)) (some (Rect.mk 0 0 9 50))
        1000 500 CropMode.attach = none ∧
    processCrop (some (Screenshot.mk "frame" 4000 1000)) (some (Rect.mk 0 0 9 50))
        1000 500 CropMode.ocr = none :=
  ⟨Or.inl (by norm_num),
    processCrop_min_size_guard (Screenshot.mk "frame" 4000 1000) (Rect.mk 0 0 9 50)
      1000 500 CropMode.attach (Or.inl (by norm_num)),
    processCrop_min_size_guard (Screenshot.mk "frame" 4000 1000) (Rect.mk 0 0 9 50)
      1000 500 CropMode.ocr (Or.inl (by norm_num))⟩

theorem join_cons (c : String) (l : List String) :
    String.join (c :: l) = c ++ String.join l := by
  have aux : ∀ (l : List String) (a : String),
      l.foldl (fun r s => r ++ s) a = a ++ l.foldl (fun r s => r ++ s) "" := by
    intro l
    induction l with
    | nil => intro a; simp
    | cons x xs ih =>
      intro a
      simp only [List.foldl_cons]
      rw [ih (a ++ x), ih ("" ++ x), String.empty_append, String.append_assoc]
  show (c :: l).foldl (fun r s => r ++ s) "" = c ++ l.foldl (fun r s => r ++ s) ""
  simp only [List.foldl_cons]
  rw [aux l ("" ++ c), String.empty_append]

theorem updateBotText_id (botId fr : String) (m : Message) :
    (updateBotText botId fr m).id = m.id := by
  unfold updateBotText
  split <;> rfl

theorem updateBotText_comp (botId fr1 fr2 : String) :
    updateBotText botId fr2 ∘ updateBotText botId fr1 = updateBotText botId fr2 := by
  funext m
  by_cases h : m.id = botId <;> simp [updateBotText, h]

theorem streamChunks_foldl_spec (botId : String) :
    ∀ (chunks : List String) (fr : String) (ms : List Message),
      (List.foldl (streamStep botId) (fr, ms) chunks).1 = fr ++ String.join chunks ∧
      (List.foldl (streamStep botId) (fr, ms) chunks).2 =
        if chunks.isEmpty then ms
        else ms.map (updateBotText botId (fr ++ String.join chunks)) := by
  intro chunks
  induction chunks with
  | nil =>
    intro fr ms
    simp [String.join]
  | cons c rest ih =>
    intro fr ms
    obtain ⟨h1, h2⟩ := ih (fr ++ c) (ms.map (updateBotText botId (fr ++ c)))
    have hstep : streamStep botId (fr, ms) c
        = (fr ++ c, ms.map (updateBotText botId (fr ++ c))) := rfl
    constructor
    · rw [List.foldl_cons, hstep, h1, join_cons, String.append_assoc]
    · rw [List.foldl_cons, hstep, h2]
      by_cases hemp : rest.isEmpty
      · rw [List.isEmpty_iff] at hemp
        simp [hemp, join_cons, String.append_empty, String.join]
      · simp only [hemp, if_false, List.map_map, updateBotText_comp,
          List.isEmpty_cons, if_neg Bool.false_ne_true]
        rw [join_cons, String.append_assoc]

theorem find?_last_bot (prev : List Message) (botId : String) (p : Message)
    (hp : p.id = botId) (hfresh : ∀ m ∈ prev, m.id ≠ botId) :
    (prev ++ [p]).find? (fun m => m.id = botId) = some p := by
  rw [List.find?_append]
  have h1 : prev.find? (fun m => m.id = botId) = none :=
    List.find?_eq_none.mpr (fun x hx => by simp [hfresh x hx])
  simp [h1, hp]

/-- C5: after the placeholder model message is appended, consuming any
prefix of the chunk sequence leaves the accumulation `fullResponse` and the
displayed text of the bot message both equal to the concatenation of exactly
the consumed fragments, in arrival order — nothing dropped, reordered, or
buffered. -/
theorem stream_accumulation_ordered (prev : List Message) (botId : String)
    (chunks : List String) (i : Nat)
    (hfresh : ∀ m ∈ prev, m.id ≠ botId) (hi : i ≤ chunks.length) :
    (streamChunks botId (prev ++ [botPlaceholder botId]) (chunks.take i)).1
      = String.join (chunks.take i) ∧
    displayedText (streamChunks botId (prev ++ [botPlaceholder botId]) (chunks.take i)).2 botId
      = some (String.join (chunks.take i)) := by
  obtain ⟨h1, h2⟩ := streamChunks_foldl_spec botId (chunks.take i) ""
    (prev ++ [botPlaceholder botId])
  have hsc : streamChunks botId (prev ++ [botPlaceholder botId]) (chunks.take i)
      = List.foldl (streamStep botId) ("", prev ++ [botPlaceholder botId]) (chunks.take i) := rfl
  refine ⟨by rw [hsc, h1, String.empty_append], ?_⟩
  rw [hsc, h2]
  by_cases hemp : (chunks.take i).isEmpty
  · rw [List.isEmpty_iff] at hemp
    rw [hemp]
    simp only [List.isEmpty_nil, if_true]
    unfold displayedText
    rw [find?_last_bot prev botId (botPlaceholder botId) rfl hfresh]
    simp [botPlaceholder, String.join]
  · simp only [hemp, if_false, if_neg Bool.false_ne_true]
    unfold displayedText
    rw [List.map_append]
    have hfresh2 : ∀ m ∈ prev.map (updateBotText botId ("" ++ String.join (chunks.take i))),
        m.id ≠ botId := by
      intro m hm
      obtain ⟨m0, hm0, rfl⟩ := List.mem_map.mp hm
      rw [updateBotText_id]
      exact hfresh m0 hm0
    have hmap : (List.map (updateBotText botId ("" ++ String.join (chunks.take i)))
        [botPlaceholder botId])
        = [{ botPlaceholder botId with text := "" ++ String.join (chunks.take i) }] := by
      simp [updateBotText, botPlaceholder]
    rw [hmap]
    rw [find?_last_bot _ botId _ rfl hfresh2]
    simp [botPlaceholder, String.empty_append]

/-- C5, witness: streaming `"Hel", "lo,", " world"` renders `"Hello,"` after
the second fragment. -/
theorem stream_accumulation_ordered_witness :
    (∀ m ∈ ([] : List Message), m.id ≠ "bot") ∧
    2 ≤ (["Hel", "lo,", " world"] : List String).length ∧
    displayedText (streamChunks "bot" ([] ++ [botPlaceholder "bot"])
        ((["Hel", "lo,", " world"] : List String).take 2)).2 "bot"
      = some (String.join ((["Hel", "lo,", " world"] : List String).take 2)) ∧
    String.join ((["Hel", "lo,", " world"] : List String).take 2) = "Hello," :=
  ⟨by simp, by norm_num,
   (stream_accumulation_ordered [] "bot" ["Hel", "lo,", " world"] 2 (by simp) (by norm_num)).2,
   by decide⟩

/-- C6, theorem (amended): on OCR success the extracted text is appended to
the whitespace-trimmed pending input, separated by a newline when the
trimmed input is nonempty (the raw extracted text replaces an
all-whitespace input); the OCR status becomes `success`. -/
theorem ocr_success_appends_trimmed (s : OverlayState) (text : String) :
    (ocrSuccessStep s text).inputText
      = (if jsTrim s.inputText = "" then text
         else jsTrim s.inputText ++ "\n" ++ text) ∧
    (ocrSuccessStep s text).ocrState = OcrState.success := by
  constructor
  · simp only [ocrSuccessStep, appendOcrText]
  · rfl

/-- C6, counterexample: for pending input `"Check: "` and extracted text
`"Total: 42"` the code first trims the trailing space, producing
`"Check:\nTotal: 42"`, not the claimed `"Check: \nTotal: 42"`. -/
theorem ocr_success_append_counterexample :
    (ocrSuccessStep
        { inputText := "Check: ", ocrState := OcrState.scanning, isCropping := true,
          tempScreenshot := some "frame", cropRect := some (Rect.mk 1 2 30 40),
          inputHighlight := false } "Total: 42").inputText
      = "Check:\nTotal: 42" ∧
    (ocrSuccessStep
        { inputText := "Check: ", ocrState := OcrState.scanning, isCropping := true,
          tempScreenshot := some "frame", cropRect := some (Rect.mk 1 2 30 40),
          inputHighlight := false } "Total: 42").inputText
      ≠ "Check: \nTotal: 42" := by
  constructor
  · decide
  · decide

/-- C7, theorem (amended): when recognition fails, the OCR status becomes
`error` and is reset to `idle` by the scheduled timeout; the pending input
text is unchanged (the operation is abandoned); but the crop UI is not
reset — `isCropping`, the captured frame and the selection all survive
(only the success path calls `cancelCrop`). -/
theorem ocr_failure_transient (s : OverlayState) :
    (ocrFailureStep s).ocrState = OcrState.error ∧
    (ocrErrorTimeoutStep (ocrFailureStep s)).ocrState = OcrState.idle ∧
    (ocrErrorTimeoutStep (ocrFailureStep s)).inputText = s.inputText ∧
    (ocrErrorTimeoutStep (ocrFailureStep s)).isCropping = s.isCropping ∧
    (ocrErrorTimeoutStep (ocrFailureStep s)).tempScreenshot = s.tempScreenshot ∧
    (ocrErrorTimeoutStep (ocrFailureStep s)).cropRect = s.cropRect :=
  ⟨rfl, rfl, rfl, rfl, rfl, rfl⟩

/-- C7, counterexample: starting from an active crop session, the failure
path followed by its timeout leaves the crop UI active (`isCropping` still
true, frame and selection still present), which differs from the reset
state `cancelCrop` would produce — refuting "the crop UI resets". -/
theorem ocr_failure_no_reset_counterexample :
    (ocrErrorTimeoutStep (ocrFailureStep
        { inputText := "draft", ocrState := OcrState.scanning, isCropping := true,
          tempScreenshot := some "frame", cropRect := some (Rect.mk 1 2 30 40),
          inputHighlight := false })).isCropping = true ∧
    (ocrErrorTimeoutStep (ocrFailureStep
        { inputText := "draft", ocrState := OcrState.scanning, isCropping := true,
          tempScreenshot := some "frame", cropRect := some (Rect.mk 1 2 30 40),
          inputHighlight := false })).tempScreenshot = some "frame" ∧
    (cancelCrop
        { inputText := "draft", ocrState := OcrState.scanning, isCropping := true,
          tempScreenshot := some "frame", cropRect := some (Rect.mk 1 2 30 40),
          inputHighlight := false }).isCropping = false ∧
    (cancelCrop
        { inputText := "draft", ocrState := OcrState.scanning, isCropping := true,
          tempScreenshot := some "frame", cropRect := some (Rect.mk 1 2 30 40),
          inputHighlight := false }).tempScreenshot = none := by
  refine ⟨rfl, rfl, rfl, rfl⟩

/-- C8: throughout a drag the stored selection rectangle has nonnegative
width and height: the mouse-move handler stores the componentwise minimum of
anchor and pointer as the corner and the absolute coordinate differences as
the dimensions (so corner plus dimension is the componentwise maximum), and
the mouse-down handler stores a degenerate rectangle at the anchor. -/
theorem crop_drag_invariant (cropStart current : Pt) :
    0 ≤ (handleCropMouseMoveRect cropStart current).w ∧
    0 ≤ (handleCropMouseMoveRect cropStart current).h ∧
    (handleCropMouseMoveRect cropStart current).x = min cropStart.x current.x ∧
    (handleCropMouseMoveRect cropStart current).y = min cropStart.y current.y ∧
    (handleCropMouseMoveRect cropStart current).w = |current.x - cropStart.x| ∧
    (handleCropMouseMoveRect cropStart current).h = |current.y - cropStart.y| ∧
    (handleCropMouseMoveRect cropStart current).x
        + (handleCropMouseMoveRect cropStart current).w
      = max cropStart.x current.x ∧
    (handleCropMouseMoveRect cropStart current).y
        + (handleCropMouseMoveRect cropStart current).h
      = max cropStart.y current.y ∧
    0 ≤ (handleCropMouseDownRect cropStart).w ∧
    0 ≤ (handleCropMouseDownRect cropStart).h := by
  refine ⟨abs_nonneg _, abs_nonneg _, min_comm _ _, min_comm _ _, rfl, rfl, ?_, ?_,
    le_refl 0, le_refl 0⟩
  · show min current.x cropStart.x + |current.x - cropStart.x| = max cropStart.x current.x
    rw [abs_sub_comm, ← max_sub_min_eq_abs]
    rw [min_comm, max_comm]
    ring
  · show min current.y cropStart.y + |current.y - cropStart.y| = max cropStart.y current.y
    rw [abs_sub_comm, ← max_sub_min_eq_abs]
    rw [min_comm, max_comm]
    ring

/-- C9: when `useThinking` is set, `createChatSession` overrides whatever
model the configuration names with `ModelType.PRO` and omits the configured
temperature from the generation config (and enables the thinking budget);
when `useThinking` is not set, the named model is used and the temperature
is passed through — so temperature reaches the API only with
`useThinking = false`. -/
theorem thinking_overrides_model (c : SessionConfig) (history : List Content) :
    (c.useThinking = true →
      (createChatSession c history).model = ModelType.PRO ∧
      (createChatSession c history).config.temperature = none ∧
      (createChatSession c history).config.thinkingBudget = some 16384) ∧
    (c.useThinking = false →
      (createChatSession c history).model = c.model ∧
      (createChatSession c history).config.temperature = some c.temperature ∧
      (createChatSession c history).config.thinkingBudget = none) := by
  constructor
  · intro h
    refine ⟨?_, ?_, ?_⟩ <;> simp [createChatSession, h]
  · intro h
    refine ⟨?_, ?_, ?_⟩ <;> simp [createChatSession, h]

/-- C9, witness: a configuration that names the flash model but enables
thinking is sent to the PRO model with no temperature. -/
theorem thinking_overrides_model_witness :
    (SessionConfig.mk "gemini-2.5-flash" (7/10) "sys" true false false).useThinking = true ∧
    (createChatSession
        (SessionConfig.mk "gemini-2.5-flash" (7/10) "sys" true false false) []).model
      = ModelType.PRO ∧
    (createChatSession
        (SessionConfig.mk "gemini-2.5-flash" (7/10) "sys" true false false) []).config.temperature
      = none ∧
    (createChatSession
        (SessionConfig.mk "gemini-2.5-flash" (7/10) "sys" true false false) []).config.thinkingBudget
      = some 16384 :=
  ⟨rfl,
    (thinking_overrides_model
      (SessionConfig.mk "gemini-2.5-flash" (7/10) "sys" true false false) []).1 rfl⟩

/-- C10: if the stream fails after the user message and the placeholder
model message (carrying any partially streamed text) were appended, the
error handler removes the placeholder, keeps the user's message, clears
`isLoading`, and sets the error to "Failed to generate response.". -/
theorem stream_error_removes_placeholder (base : List Message) (userMsg : Message)
    (botId partialText : String)
    (hbase : ∀ m ∈ base, m.id ≠ botId) (huser : userMsg.id ≠ botId) :
    streamErrorStep botId
        { messages := base ++ [userMsg,
            { id := botId, role := Role.model, text := partialText, isStreaming := true }],
          isLoading := true, error := none }
      = { messages := base ++ [userMsg], isLoading := false,
          error := some "Failed to generate response." } := by
  simp only [streamErrorStep]
  have h1 : base.filter (fun m => m.id != botId) = base :=
    List.filter_eq_self.mpr (fun m hm => by simp [hbase m hm])
  have h2 : List.filter (fun m => m.id != botId)
      [userMsg, { id := botId, role := Role.model, text := partialText,
                  isStreaming := true : Message }]
      = [userMsg] := by
    have hu : (userMsg.id != botId) = true := by simp [huser]
    simp [List.filter, hu]
  rw [List.filter_append, h1, h2]

/-- C10, witness: with one prior user message and a placeholder holding the
partial text "par", the error handler keeps only the user message and
surfaces the error. -/
theorem stream_error_removes_placeholder_witness :
    (∀ m ∈ ([] : List Message), m.id ≠ "2") ∧
    (Message.mk "1" Role.user "hi" false).id ≠ "2" ∧
    streamErrorStep "2"
        { messages := [] ++ [Message.mk "1" Role.user "hi" false,
            { id := "2", role := Role.model, text := "par", isStreaming := true }],
          isLoading := true, error := none }
      = { messages := [] ++ [Message.mk "1" Role.user "hi" false], isLoading := false,
          error := some "Failed to generate response." } :=
  ⟨by simp, by decide,
    stream_error_removes_placeholder [] (Message.mk "1" Role.user "hi" false) "2" "par"
      (by simp) (by decide)⟩

end Glassly
